import Mathlib

/-!
Shallow embedding of the Stage Experiment Engine backend (src/server.js).

Modelling conventions:
* Timestamps are `Int` milliseconds.  The source stores ISO-8601 strings
  produced by `Date.toISOString()` and compares them with `<=` / `>`; for the
  fixed-width format those string comparisons agree with chronological order,
  so an integer clock is an order-isomorphic abstraction.  `getNextTime` uses
  the local calendar; the model clock is local-time milliseconds (a single
  timezone, no DST, matching the spec's "local" wording).
* Each `Math.random()` draw is a separate explicit parameter: the comparison
  draw for epsilon is a rational `u` (the source compares against the literal
  0.2), and every `arr[Math.floor(Math.random()*arr.length)]` draw is a `Nat`
  index reduced modulo the array length.  `uuidv4()` results are `String`
  parameters.
* JavaScript object mutation through references held by `filter`/`find` is
  modelled by index-based updates (`List.set`), which preserves positions the
  same way in-place mutation does; arrays only ever grow by `push` (append).
-/

/-- User attributes carried on events; only `name` and `region` are ever read
(by the message composer).  The source stores them JSON-stringified on the
journey record and parses them back in the sweep; that round trip is the
identity here. -/
structure Attrs where
  name : Option String
  region : Option String
deriving DecidableEq, Inhabited

/-- A `user_journey` record (see the webhook handler in src/server.js). -/
structure Journey where
  id : String
  user_id : String
  event_type : String
  event_time : Int
  properties : Attrs
  check_at : Int
  checked : Bool
deriving DecidableEq, Inhabited

/-- An `experiments` record (see `createExperiment` in src/server.js). -/
structure Experiment where
  id : String
  user_id : String
  cohort : String
  timing : String
  channel : String
  lever : String
  offer : String
  tone : String
  message : String
  created_at : Int
  sent_at : Option Int
  opened_at : Option Int
  converted_at : Option Int
  status : String
deriving DecidableEq, Inhabited

/-- A `scheduled_messages` record. -/
structure ScheduledSend where
  id : String
  experiment_id : String
  user_id : String
  send_at : Int
  status : String
deriving DecidableEq, Inhabited

/-- A `combo_stats` record (see `updateComboStats` in src/server.js). -/
structure ComboStat where
  combo_key : String
  timing : String
  channel : String
  lever : String
  offer : String
  sent_count : Nat
  converted_count : Nat
  last_updated : Int
deriving DecidableEq, Inhabited

/-- The lowdb database (`db.data`): four collections. -/
structure State where
  experiments : List Experiment
  combo_stats : List ComboStat
  scheduled_messages : List ScheduledSend
  user_journey : List Journey
deriving DecidableEq, Inhabited

/-- `defaultData` in src/server.js: all four collections empty. -/
def initState : State := ⟨[], [], [], []⟩

/-- One entry of `eventConfig`.  The source uses field presence
(`config.immediate`, `config.waitForEvent`) as a disjoint tag; the three
configured entries populate exactly one of the two shapes, so a tagged
variant is the faithful rendering. -/
inductive EventRule
| waits (waitForEvent : String) (timeout : Int) (cohortIfMissing : String)
| immediate (cohort : String)
deriving DecidableEq

/-- `eventConfig` from src/server.js (the `minViews: 1` field of the first
entry is never read by any code path and is omitted). -/
def eventConfigFor (t : String) : Option EventRule :=
  if t = "trial_paywall_view" then
    some (.waits "trial_initiated" (30 * 60 * 1000) "paywall_bouncers")
  else if t = "trial_initiated" then
    some (.waits "trial_activated" (10 * 60 * 1000) "checkout_abandoners")
  else if t = "payment_failed" then
    some (.immediate "payment_failed")
  else none

/-- `frameworks.tone` from src/server.js. -/
def frameworksTone : List String :=
  ["urgent", "friendly", "curious", "personal", "regional"]

/-- `frameworks.timing.delays` from src/server.js.  The object maps
`next_morning`, `next_evening` and `payday` to `null`; `createExperiment`
tests the looked-up delay with `if (delay)`, which treats `null` and
`undefined` (absent key) identically, so both are `none` here. -/
def timingDelay (t : String) : Option Int :=
  if t = "2min" then some (2 * 60 * 1000)
  else if t = "5min" then some (5 * 60 * 1000)
  else if t = "30min" then some (30 * 60 * 1000)
  else if t = "1hr" then some (60 * 60 * 1000)
  else if t = "2hr" then some (2 * 60 * 60 * 1000)
  else if t = "4hr" then some (4 * 60 * 60 * 1000)
  else none

/-- One cohort's row of `cohortIntelligence`. -/
structure CohortIntel where
  timing : List String
  channel : List String
  lever : List String
  offer : List String
  tone : List String
deriving DecidableEq, Inhabited

/-- `cohortIntelligence[cohort] || cohortIntelligence.checkout_abandoners`
from `selectCombo` in src/server.js. -/
def cohortIntelligenceFor (c : String) : CohortIntel :=
  if c = "payment_failed" then
    ⟨["2min", "5min", "30min"], ["whatsapp", "sms"],
     ["reciprocity", "personalization", "free_value"],
     ["rupee_1_trial", "paytm_cashback"], ["friendly", "personal"]⟩
  else if c = "paywall_bouncers" then
    ⟨["1hr", "2hr", "next_evening"], ["push", "whatsapp"],
     ["free_value", "social_proof", "cliffhanger"],
     ["free_episode", "extended_preview"], ["curious", "friendly"]⟩
  else
    ⟨["2min", "1hr", "2hr"], ["whatsapp", "push"],
     ["scarcity", "fomo", "loss_aversion"],
     ["discount_50", "rupee_1_trial", "free_episode"], ["urgent", "curious"]⟩

/-- `messageTemplates` from src/server.js (`none` for unconfigured levers). -/
def messageTemplatesFor (lever : String) : Option (List String) :=
  if lever = "scarcity" then
    some ["Only {hours} hours left!", "Offer expires soon", "Limited time only"]
  else if lever = "fomo" then
    some ["{count} people watching right now", "Trending in {region}",
          "Everyone\x27s talking about this"]
  else if lever = "social_proof" then
    some ["Rated 4.8 by 10K viewers", "Join 1 lakh+ subscribers",
          "Top rated in {region}"]
  else if lever = "free_value" then
    some ["FREE episode waiting", "On us - no strings attached",
          "Your free gift inside"]
  else if lever = "reciprocity" then
    some ["We saved your spot", "Your show is waiting",
          "We kept it ready for you"]
  else if lever = "cliffhanger" then
    some ["Did she find out the truth?", "You won\x27t believe what happens next",
          "The twist is coming"]
  else if lever = "personalization" then
    some ["Picked just for you, {name}", "Based on what you love",
          "Your personalized pick"]
  else none

/-- `offerMessages` from src/server.js. -/
def offerMessagesFor (offer : String) : Option String :=
  if offer = "free_episode" then some "Watch Episode 1 FREE"
  else if offer = "discount_50" then some "50% OFF today only"
  else if offer = "rupee_1_trial" then some "Just ₹1 to start"
  else if offer = "paytm_cashback" then some "Get ₹50 Paytm cashback"
  else if offer = "no_offer" then some "Continue your journey"
  else none

/-- `randomFrom(arr)` = `arr[Math.floor(Math.random() * arr.length)]`: the
draw `Math.floor(Math.random()*arr.length)` is modelled as `i % arr.length`
for an arbitrary `i : Nat`, which ranges over exactly the same indices.
Every call site in the source passes a non-empty array, so the `default`
escape for the empty list is never exercised. -/
def randomFrom {α : Type} [Inhabited α] (arr : List α) (i : Nat) : α :=
  arr.getD (i % arr.length) default

/-- The explicit randomness consumed by one `createExperiment` /
`selectCombo` / `generateMessage` call chain, one field per `Math.random()`
or `uuidv4()` draw in source order. -/
structure Rnd where
  u : Rat
  pick : Nat
  pt : Nat
  pc : Nat
  pl : Nat
  po : Nat
  ptone : Nat
  tmpl : Nat
  countR : Nat
  hoursR : Nat
  expId : String
  sendId : String
deriving DecidableEq, Inhabited

/-- The five-field combination returned by `selectCombo`. -/
structure Combo where
  timing : String
  channel : String
  lever : String
  offer : String
  tone : String
deriving DecidableEq, Inhabited

/-- The `cvr` field computed in `selectCombo`:
`s.sent_count > 0 ? s.converted_count / s.sent_count : 0`. -/
def cvrOf (s : ComboStat) : Rat :=
  if 0 < s.sent_count then (s.converted_count : Rat) / (s.sent_count : Rat) else 0

/-- Insertion step of the stable descending sort on the `cvr` component. -/
def insertByCvr (x : ComboStat × Rat) : List (ComboStat × Rat) → List (ComboStat × Rat)
  | [] => [x]
  | y :: l => if y.2 ≤ x.2 then x :: y :: l else y :: insertByCvr x l

/-- `.sort((a, b) => b.cvr - a.cvr)` from `selectCombo`.
`Array.prototype.sort` is stable, and a stable sort's output — non-increasing
`cvr` with equal-`cvr` elements kept in original order — is unique, so this
stable insertion sort computes exactly the array the source computes. -/
def sortByCvrDesc : List (ComboStat × Rat) → List (ComboStat × Rat)
  | [] => []
  | x :: l => insertByCvr x (sortByCvrDesc l)

/-- The `stats` pipeline at the top of `selectCombo`: filter to
`sent_count >= 5`, attach `cvr`, sort by `cvr` descending. -/
def rankedStats (comboStats : List ComboStat) : List (ComboStat × Rat) :=
  sortByCvrDesc ((comboStats.filter (fun s => 5 ≤ s.sent_count)).map
    (fun s => (s, cvrOf s)))

/-- `randomFrom(intelligence.tone || ['friendly'])` from `selectCombo`. -/
def toneDraw (intelligence : CohortIntel) (r : Rnd) : String :=
  randomFrom (if intelligence.tone = [] then ["friendly"] else intelligence.tone) r.ptone

/-- `selectCombo(cohort)` from src/server.js.  `r.u` is the `Math.random()`
value compared against 0.2 (`explore`), `r.pick` the exploit-branch draw,
`r.pt`/`r.pc`/`r.pl`/`r.po` the explore-branch draws, `r.ptone` the tone
draw. -/
def selectCombo (cohort : String) (comboStats : List ComboStat) (r : Rnd) : Combo :=
  let intelligence := cohortIntelligenceFor cohort
  let stats := rankedStats comboStats
  if ¬ (r.u < (2 : Rat) / 10) ∧ 0 < stats.length then
    let selected := (randomFrom (stats.take 5) r.pick).1
    ⟨selected.timing, selected.channel, selected.lever, selected.offer,
     toneDraw intelligence r⟩
  else
    ⟨randomFrom intelligence.timing r.pt, randomFrom intelligence.channel r.pc,
     randomFrom intelligence.lever r.pl, randomFrom intelligence.offer r.po,
     toneDraw intelligence r⟩

/-- Character-list worker for `replaceFirst`: replace the first occurrence of
`pat` in `s` by `rep` (no occurrence: `s` unchanged). -/
def replaceFirstChars (pat rep : List Char) : List Char → List Char
  | [] => []
  | c :: rest =>
    if pat.isPrefixOf (c :: rest) then rep ++ (c :: rest).drop pat.length
    else c :: replaceFirstChars pat rep rest

/-- JavaScript's `String.prototype.replace` with a string pattern replaces
only the first occurrence (all patterns passed by `generateMessage` are
non-empty). -/
def replaceFirst (s pat rep : String) : String :=
  String.mk (replaceFirstChars pat.data rep.data s.data)

/-- The placeholder-substitution chain in `generateMessage`.  The cosmetic
draws `Math.floor(Math.random()*5000)+1000` and `Math.floor(Math.random()*4)+2`
are modelled as `r.countR % 5000 + 1000` and `r.hoursR % 4 + 2`, which range
over the same values. -/
def fillTemplate (template : String) (attrs : Attrs) (r : Rnd) : String :=
  let t1 := replaceFirst template "{name}" (attrs.name.getD "there")
  let t2 := replaceFirst t1 "{region}" (attrs.region.getD "your city")
  let t3 := replaceFirst t2 "{count}" (toString (r.countR % 5000 + 1000))
  replaceFirst t3 "{hours}" (toString (r.hoursR % 4 + 2))

/-- The filled lever template used by `generateMessage`
(`messageTemplates[combo.lever] || ["Check out Stage"]`, one template drawn
at random, placeholders substituted). -/
def composedTemplate (combo : Combo) (attrs : Attrs) (r : Rnd) : String :=
  fillTemplate (randomFrom ((messageTemplatesFor combo.lever).getD ["Check out Stage"]) r.tmpl)
    attrs r

/-- `offerMessages[combo.offer] || "Start watching"` from `generateMessage`. -/
def composedOffer (combo : Combo) : String :=
  (offerMessagesFor combo.offer).getD "Start watching"

/-- `generateMessage(combo, userAttributes)` from src/server.js. -/
def generateMessage (combo : Combo) (attrs : Attrs) (r : Rnd) : String :=
  let template := composedTemplate combo attrs r
  let offerMsg := composedOffer combo
  if combo.tone = "urgent" then "⏰ " ++ template ++ "! " ++ offerMsg ++ " - hurry!"
  else if combo.tone = "friendly" then "Hey! 👋 " ++ template ++ ". " ++ offerMsg
  else if combo.tone = "curious" then "🤔 " ++ template ++ "... " ++ offerMsg
  else if combo.tone = "regional" then "🎬 Apne liye kuch khaas! " ++ offerMsg
  else template ++ ". " ++ offerMsg

/-- Milliseconds per day. -/
def dayMs : Int := 86400000

/-- `getNextTime(hour, minute)` from src/server.js: today's local `hour:minute`
(midnight-of-today plus the offset), pushed to the next day when it is not in
the future (`if (target <= now) target.setDate(target.getDate() + 1)`). -/
def getNextTime (hour minute : Int) (now : Int) : Int :=
  let target := now - now % dayMs + (hour * 60 + minute) * 60000
  if target ≤ now then target + dayMs else target

/-- The send-time computation in `createExperiment`: fixed delay when the
timing has one; otherwise next 08:00 / next 19:00 for the day-part values;
otherwise `now + 60000`. -/
def computeSendAt (timing : String) (now : Int) : Int :=
  match timingDelay timing with
  | some delay => now + delay
  | none =>
    if timing = "next_morning" then getNextTime 8 0 now
    else if timing = "next_evening" then getNextTime 19 0 now
    else now + 60000

/-- The combination key `` `${timing}|${channel}|${lever}|${offer}` ``. -/
def comboKeyOf (e : Experiment) : String :=
  e.timing ++ "|" ++ e.channel ++ "|" ++ e.lever ++ "|" ++ e.offer

/-- Apply `f` to the first element satisfying `p` (the effect of mutating the
object returned by `Array.prototype.find`). -/
def updateFirst {α : Type} (p : α → Bool) (f : α → α) : List α → List α
  | [] => []
  | x :: l => if p x then f x :: l else x :: updateFirst p f l

/-- `updateComboStats(comboKey, experiment, converted)` from src/server.js.
Note the source increments `sent_count` unconditionally, for conversions as
well as deliveries. -/
def updateComboStats (stats : List ComboStat) (comboKey : String) (e : Experiment)
    (converted : Bool) (now : Int) : List ComboStat :=
  match stats.find? (fun s => s.combo_key == comboKey) with
  | some _ =>
    updateFirst (fun s => s.combo_key == comboKey)
      (fun s => { s with
        sent_count := s.sent_count + 1,
        converted_count := if converted then s.converted_count + 1 else s.converted_count,
        last_updated := now }) stats
  | none =>
    stats ++ [⟨comboKey, e.timing, e.channel, e.lever, e.offer, 1,
              if converted then 1 else 0, now⟩]

/-- The dedup predicate at the top of `createExperiment`:
`e.user_id === userId && e.cohort === cohort && e.created_at > oneHourAgo`
with `oneHourAgo = now - 60*60*1000`. -/
def recentPred (userId cohort : String) (now : Int) (e : Experiment) : Bool :=
  e.user_id == userId && e.cohort == cohort && decide (now - 3600000 < e.created_at)

/-- The experiment object literal built in the fresh branch of
`createExperiment` (selected combo, composed message, status pending). -/
def freshExperiment (s : State) (userId cohort : String) (attrs : Attrs)
    (now : Int) (r : Rnd) : Experiment :=
  let combo := selectCombo cohort s.combo_stats r
  ⟨r.expId, userId, cohort, combo.timing, combo.channel, combo.lever,
   combo.offer, combo.tone, generateMessage combo attrs r, now,
   none, none, none, "pending"⟩

/-- The scheduled-send object literal pushed alongside a fresh experiment. -/
def freshSend (s : State) (userId cohort : String) (now : Int) (r : Rnd) :
    ScheduledSend :=
  ⟨r.sendId, r.expId, userId,
   computeSendAt (selectCombo cohort s.combo_stats r).timing now, "pending"⟩

/-- `createExperiment(userId, cohort, userAttributes)` from src/server.js.
Returns the updated database and the id of the experiment the call returned
(in the dedup branch the source returns the stored `recent` object; the
fresh branch returns the new id). -/
def createExperiment (s : State) (userId cohort : String) (attrs : Attrs)
    (now : Int) (r : Rnd) : State × String :=
  match s.experiments.find? (recentPred userId cohort now) with
  | some recent => (s, recent.id)
  | none =>
    ({ s with
        experiments := s.experiments ++ [freshExperiment s userId cohort attrs now r],
        scheduled_messages := s.scheduled_messages ++ [freshSend s userId cohort now r] },
     r.expId)

/-- The marking pass in `checkForConversion`: every unresolved journey record
of the given user and event type gets `checked = true`. -/
def markChecked (userId eventType : String) (js : List Journey) : List Journey :=
  js.map (fun j =>
    if j.user_id == userId && j.event_type == eventType && !j.checked then
      { j with checked := true }
    else j)

/-- The filter `e.user_id === userId && ['sent', 'opened'].includes(e.status)`
from `checkForConversion`. -/
def isActiveFor (userId : String) (e : Experiment) : Bool :=
  e.user_id == userId && (e.status == "sent" || e.status == "opened")

/-- Index of the experiment picked by
`filter(...).sort((a, b) => created_at desc)[0]` in `checkForConversion`:
among matching experiments, the maximal `created_at`, earliest array position
on ties (a stable descending sort puts that element first). -/
def convTargetIdx (userId : String) (es : List Experiment) : Option Nat :=
  (List.range es.length).foldl
    (fun acc i =>
      if isActiveFor userId (es.getD i default) then
        match acc with
        | none => some i
        | some j =>
          if (es.getD j default).created_at < (es.getD i default).created_at then
            some i
          else some j
      else acc)
    none

/-- `checkForConversion(userId, eventType)` from src/server.js. -/
def checkForConversion (s : State) (userId eventType : String) (now : Int) : State :=
  if eventType == "trial_initiated" then
    { s with user_journey := markChecked userId "trial_paywall_view" s.user_journey }
  else if eventType == "trial_activated" then
    let js := markChecked userId "trial_initiated" s.user_journey
    match convTargetIdx userId s.experiments with
    | some i =>
      let e := s.experiments.getD i default
      let e2 := { e with converted_at := some now, status := "converted" }
      { s with
          user_journey := js,
          experiments := s.experiments.set i e2,
          combo_stats := updateComboStats s.combo_stats (comboKeyOf e2) e2 true now }
    | none => { s with user_journey := js }
  else s

/-- One iteration of the webhook handler's event loop (`if (!userId) continue`
models the falsy check on an empty identifier; `jid` is the `uuidv4()` drawn
for a new journey record, `now` the arrival clock used for both `event_time`
and `check_at`). -/
def processEvent (s : State) (userId eventType : String) (props : Attrs)
    (now : Int) (jid : String) (r : Rnd) : State :=
  if userId == "" then s
  else
    let s1 := checkForConversion s userId eventType now
    match eventConfigFor eventType with
    | none => s1
    | some (.immediate cohort) => (createExperiment s1 userId cohort props now r).1
    | some (.waits _ timeout _) =>
      { s1 with user_journey := s1.user_journey ++
          [⟨jid, userId, eventType, now, props, now + timeout, false⟩] }

/-- The batch selected by the deadline-sweep cron:
indices of records with `check_at <= now && !checked`, first 100. -/
def duePendingIdx (s : State) (now : Int) : List Nat :=
  ((List.range s.user_journey.length).filter
    (fun i =>
      let j := s.user_journey.getD i default
      decide (j.check_at ≤ now) && !j.checked)).take 100

/-- The follow-up search in the deadline sweep:
`user_journey.find(j => j.user_id === u && j.event_type === waitFor &&
j.event_time > t)`. -/
def hasFollowUp (js : List Journey) (userId waitFor : String) (t : Int) : Bool :=
  (js.find? (fun j =>
    j.user_id == userId && j.event_type == waitFor && decide (t < j.event_time))).isSome

/-- Body of one deadline-sweep loop iteration, with the batched record `j`
(read at index `i`) passed explicitly.  Records whose event type has no wait
rule are skipped by `continue` before `journey.checked = true`, so their
flag is not touched. -/
def sweepProcess (now : Int) (r : Rnd) (s : State) (i : Nat) (j : Journey) : State :=
  match eventConfigFor j.event_type with
  | some (.waits waitFor _ cohortIfMissing) =>
    let s1 :=
      if hasFollowUp s.user_journey j.user_id waitFor j.event_time then s
      else (createExperiment s j.user_id cohortIfMissing j.properties now r).1
    { s1 with user_journey := s1.user_journey.set i { j with checked := true } }
  | _ => s

/-- One iteration of the deadline-sweep loop over the batched record at
index `i`. -/
def sweepStep (now : Int) (rs : Nat → Rnd) (s : State) (i : Nat) : State :=
  sweepProcess now (rs i) s i (s.user_journey.getD i default)

/-- The deadline-sweep cron body from src/server.js. -/
def sweepRun (s : State) (now : Int) (rs : Nat → Rnd) : State :=
  (duePendingIdx s now).foldl (sweepStep now rs) s

/-- The batch selected by the delivery-dispatcher cron:
indices of sends with `status === 'pending' && send_at <= now`, first 100. -/
def dueMsgsIdx (s : State) (now : Int) : List Nat :=
  ((List.range s.scheduled_messages.length).filter
    (fun i =>
      let m := s.scheduled_messages.getD i default
      m.status == "pending" && decide (m.send_at ≤ now))).take 100

/-- One iteration of the delivery-dispatcher loop.  `adapterOk` gives the
success flag `sendViaCleverTap` returns for each experiment id; the source
discards that return value, and `sendViaCleverTap` catches its own errors
(returning `{success: false}`), so the dispatcher's `try/catch` never fires
and the marking below runs regardless of the adapter outcome. -/
def dispatchProcess (now : Int) (adapterOk : String → Bool) (s : State) (i : Nat)
    (msg : ScheduledSend) : State :=
  match s.experiments.findIdx? (fun e => e.id == msg.experiment_id) with
  | none => s
  | some j =>
    let _ok := adapterOk msg.experiment_id
    let e2 := { s.experiments.getD j default with sent_at := some now, status := "sent" }
    { s with
        scheduled_messages := s.scheduled_messages.set i { msg with status := "sent" },
        experiments := s.experiments.set j e2,
        combo_stats := updateComboStats s.combo_stats (comboKeyOf e2) e2 false now }

/-- One iteration of the delivery-dispatcher loop over the batched send at
index `i`. -/
def dispatchStep (now : Int) (adapterOk : String → Bool) (s : State) (i : Nat) : State :=
  dispatchProcess now adapterOk s i (s.scheduled_messages.getD i default)

/-- The delivery-dispatcher cron body from src/server.js. -/
def dispatchRun (s : State) (now : Int) (adapterOk : String → Bool) : State :=
  (dueMsgsIdx s now).foldl (dispatchStep now adapterOk) s

/-- One invocation of any state-mutating entry point of the engine:
a webhook event, the manual `/api/trigger` surface, a deadline-sweep run,
or a delivery-dispatcher run. -/
inductive Op
| event (userId eventType : String) (props : Attrs) (now : Int) (jid : String) (r : Rnd)
| trigger (userId cohort : String) (attrs : Attrs) (now : Int) (r : Rnd)
| sweep (now : Int) (rs : Nat → Rnd)
| dispatch (now : Int) (adapterOk : String → Bool)

/-- Interpreter for one operation.  `/api/trigger` rejects empty
`user_id`/`cohort` with a 400 before calling `createExperiment`. -/
def applyOp (s : State) : Op → State
  | .event u t p now jid r => processEvent s u t p now jid r
  | .trigger u c a now r =>
    if u == "" || c == "" then s else (createExperiment s u c a now r).1
  | .sweep now rs => sweepRun s now rs
  | .dispatch now ok => dispatchRun s now ok

/-- A run of the engine: a sequence of operations applied in order. -/
def applyOps (s : State) (ops : List Op) : State := ops.foldl applyOp s

/-- `lookupStat k stats` is the ComboStat stored under combination key `k`
(first match, as `Array.prototype.find` returns). -/
def lookupStat (k : String) (l : List ComboStat) : Option ComboStat :=
  l.find? (fun s => s.combo_key == k)

/-- All stored ComboStats satisfy `converted_count ≤ sent_count`. -/
def StatsInv (l : List ComboStat) : Prop :=
  ∀ c ∈ l, c.converted_count ≤ c.sent_count

/-- No stored count decreases: whatever key is present in `a` is present in
`b` with counts at least as large. -/
def StatsMono (a b : List ComboStat) : Prop :=
  ∀ k c, lookupStat k a = some c →
    ∃ c', lookupStat k b = some c' ∧
      c.sent_count ≤ c'.sent_count ∧ c.converted_count ≤ c'.converted_count

/- Concrete fixtures used by the counterexample-style theorems and by the
witnesses of the universally quantified ones. -/

/-- An experiment already delivered (status `sent`), eligible for conversion. -/
def e1 : Experiment :=
  ⟨"E1", "u1", "checkout_abandoners", "2min", "push", "scarcity", "no_offer",
   "urgent", "msg", 0, some 50, none, none, "sent"⟩

/-- Its ComboStat after five deliveries, one conversion. -/
def cs1 : ComboStat :=
  ⟨"2min|push|scarcity|no_offer", "2min", "push", "scarcity", "no_offer", 5, 1, 0⟩

/-- State in which user `u1` has the delivered experiment `e1` and its combo
has stats `cs1`. -/
def convState : State := ⟨[e1], [cs1], [], []⟩

/-- A not-yet-delivered experiment. -/
def e2x : Experiment :=
  ⟨"E1", "u1", "checkout_abandoners", "2min", "push", "scarcity", "no_offer",
   "urgent", "msg", 0, none, none, none, "pending"⟩

/-- Its pending scheduled send, due at time 100. -/
def m1 : ScheduledSend := ⟨"M1", "E1", "u1", 100, "pending"⟩

/-- State with one due pending send for a pending experiment. -/
def dispState : State := ⟨[e2x], [], [m1], []⟩

/-- A ComboStat whose combination lies outside every `payment_failed` allowed
set, with enough samples to be eligible. -/
def outsideStat : ComboStat :=
  ⟨"next_morning|push|cliffhanger|free_episode", "next_morning", "push",
   "cliffhanger", "free_episode", 10, 5, 0⟩

/-- Randomness forcing the exploit branch (`u = 1` is not `< 0.2`) with all
index draws 0. -/
def r10 : Rnd := ⟨1, 0, 0, 0, 0, 0, 0, 0, 0, 0, "X", "Y"⟩

/-- Randomness whose epsilon draw equals the threshold exactly (`0.2 < 0.2`
is false, so the exploit branch fires), all index draws 0. -/
def rW : Rnd := ⟨(2 : Rat) / 10, 0, 0, 0, 0, 0, 0, 0, 0, 0, "W1", "W2"⟩

/-- A fixed combination used to compare the five tone renderings. -/
def demoCombo : Combo := ⟨"2min", "push", "scarcity", "no_offer", ""⟩

/-- Empty user attributes. -/
def demoAttrs : Attrs := ⟨none, none⟩

/-- Fixed message-composition randomness (template index 2 picks the
placeholder-free scarcity template). -/
def demoRnd : Rnd := ⟨0, 0, 0, 0, 0, 0, 0, 2, 0, 0, "", ""⟩

/-- A combination with a tone outside the configured tone set. -/
def mysteryCombo : Combo := ⟨"2min", "push", "scarcity", "no_offer", "robotic"⟩

/-- An already-resolved journey record. -/
def jChecked : Journey := ⟨"J1", "u1", "trial_initiated", 0, ⟨none, none⟩, 600000, true⟩

/-- State holding only the resolved journey record `jChecked`. -/
def sChecked : State := ⟨[], [], [], [jChecked]⟩

/- Helper lemmas (shared; none of them is a claim theorem). -/

lemma randomFrom_mem {α : Type} [Inhabited α] {l : List α} (i : Nat) (h : l ≠ []) :
    randomFrom l i ∈ l := by
  have hl : 0 < l.length := List.length_pos.mpr h
  have hm : i % l.length < l.length := Nat.mod_lt _ hl
  unfold randomFrom
  rw [List.getD_eq_getElem l _ hm]
  exact List.getElem_mem hm

lemma find?_append_some {α : Type} {p : α → Bool} {l l' : List α} {c : α}
    (h : l.find? p = some c) : (l ++ l').find? p = some c := by
  induction l with
  | nil => simp [List.find?] at h
  | cons x xs ih =>
    rw [List.cons_append]
    by_cases hx : p x
    · rw [List.find?_cons_of_pos _ hx] at h ⊢; exact h
    · rw [List.find?_cons_of_neg _ (by simpa using hx)] at h ⊢; exact ih h

lemma find?_append_none {α : Type} {p : α → Bool} {l l' : List α}
    (h : l.find? p = none) : (l ++ l').find? p = l'.find? p := by
  induction l with
  | nil => simp
  | cons x xs ih =>
    rw [List.cons_append]
    by_cases hx : p x
    · rw [List.find?_cons_of_pos _ hx] at h; exact absurd h (by simp)
    · rw [List.find?_cons_of_neg _ (by simpa using hx)] at h ⊢; exact ih h

lemma tone_ne_nil (c : String) : (cohortIntelligenceFor c).tone ≠ [] := by
  unfold cohortIntelligenceFor
  split
  · simp
  · split <;> simp

/-- The tone component of `selectCombo` is the same draw in both branches. -/
lemma selectCombo_tone (cohort : String) (stats : List ComboStat) (r : Rnd) :
    (selectCombo cohort stats r).tone = toneDraw (cohortIntelligenceFor cohort) r := by
  simp only [selectCombo]
  split <;> rfl

lemma toneDraw_mem (intel : CohortIntel) (r : Rnd) (h : intel.tone ≠ []) :
    toneDraw intel r ∈ intel.tone := by
  unfold toneDraw
  rw [if_neg h]
  exact randomFrom_mem _ h

/-- C1: the claim says that when the Conversion Resolver marks an experiment
converted, the ComboStat's converted_count is incremented by exactly 1 and
its sent_count is left unchanged.  Evaluating `checkForConversion` on a
concrete state (experiment delivered, stats at sent 5 / converted 1) shows
the resolver does mark the experiment converted and does increment
converted_count by 1, but it also increments sent_count (5 becomes 6):
`updateComboStats` adds 1 to sent_count unconditionally, on the conversion
path as well as the delivery path. -/
theorem C1_conversion_also_increments_sent_count :
    ((checkForConversion convState "u1" "trial_activated" 999).experiments.map
      (fun e => e.status)) = ["converted"] ∧
    ((checkForConversion convState "u1" "trial_activated" 999).combo_stats.map
      (fun c => (c.combo_key, c.sent_count, c.converted_count)))
      = [("2min|push|scarcity|no_offer", 6, 2)] := by
  exact ⟨by decide, by decide⟩

/-- C2: the claim says that when the delivery adapter reports failure, the
ScheduledSend stays pending, the Experiment keeps its status and sent_at,
and sent_count is not incremented.  Running the dispatcher on a concrete
state with one due pending send while the adapter returns failure for every
send shows the code marks the send sent, sets the experiment's status to
sent (with a sent_at), and increments the ComboStat anyway: the dispatcher
discards `sendViaCleverTap`'s return value, and that function catches its
own errors, so the failure never reaches the dispatcher's catch block. -/
theorem C2_adapter_failure_still_marked_sent :
    ((dispatchRun dispState 1000 (fun _ => false)).scheduled_messages.map
      (fun m => m.status)) = ["sent"] ∧
    ((dispatchRun dispState 1000 (fun _ => false)).experiments.map
      (fun e => (e.status, e.sent_at))) = [("sent", some 1000)] ∧
    ((dispatchRun dispState 1000 (fun _ => false)).combo_stats.map
      (fun c => (c.combo_key, c.sent_count, c.converted_count)))
      = [("2min|push|scarcity|no_offer", 1, 0)] := by
  exact ⟨by decide, by decide, by decide⟩

/-- C6: the follow-up search used by the deadline sweep accepts an event as
a valid follow-up (suppressing abandonment) exactly when it is from the
same user, has the expected event type, and its event time is strictly
greater than the triggering record's event time; an equal or earlier event
time never qualifies. -/
theorem C6_follow_up_strictly_later (js : List Journey) (userId waitFor : String)
    (t : Int) :
    hasFollowUp js userId waitFor t = true ↔
    ∃ j ∈ js, j.user_id = userId ∧ j.event_type = waitFor ∧ t < j.event_time := by
  unfold hasFollowUp
  rw [List.find?_isSome]
  simp [Bool.and_eq_true, beq_iff_eq, decide_eq_true_eq, and_assoc]

/-- C9: the Message Composer's tone wrapping yields five pairwise distinct
renderings across the five configured tone values (on a fixed template and
offer the five composed messages are pairwise different), and every tone
value outside the configured tone set falls back to the plain concatenation
form `template ++ ". " ++ offer`.  (The `personal` tone is itself rendered
by that plain fallback branch, which still differs from the other four
renderings.) -/
theorem C9_tone_renderings :
    (∀ t1 ∈ frameworksTone, ∀ t2 ∈ frameworksTone, t1 ≠ t2 →
      generateMessage { demoCombo with tone := t1 } demoAttrs demoRnd ≠
      generateMessage { demoCombo with tone := t2 } demoAttrs demoRnd) ∧
    (∀ (combo : Combo) (attrs : Attrs) (r : Rnd), combo.tone ∉ frameworksTone →
      generateMessage combo attrs r =
        composedTemplate combo attrs r ++ ". " ++ composedOffer combo) := by
  constructor
  · decide
  · intro combo attrs r h
    simp only [frameworksTone, List.mem_cons, List.not_mem_nil, or_false, not_or] at h
    obtain ⟨h1, h2, h3, _h4, h5⟩ := h
    simp [generateMessage, h1, h2, h3, h5]

/-- C9 witness: the urgent and friendly renderings differ on the fixture
input, and an unconfigured tone composes the plain concatenation form. -/
theorem C9_tone_renderings_witness :
    generateMessage { demoCombo with tone := "urgent" } demoAttrs demoRnd ≠
      generateMessage { demoCombo with tone := "friendly" } demoAttrs demoRnd ∧
    generateMessage mysteryCombo demoAttrs demoRnd =
      composedTemplate mysteryCombo demoAttrs demoRnd ++ ". " ++
        composedOffer mysteryCombo := by
  exact ⟨C9_tone_renderings.1 "urgent" (by decide) "friendly" (by decide) (by decide),
         C9_tone_renderings.2 mysteryCombo demoAttrs demoRnd (by decide)⟩

/-- C10: the exploit branch of `selectCombo` draws from the global ComboStat
pool with no cohort filtering: on a concrete statistics state holding one
eligible combo none of whose timing/channel/lever/offer values belongs to
the `payment_failed` cohort's allowed sets, the selection for that cohort
returns exactly those out-of-set values; only the tone always comes from
the requested cohort's own tone set, and any unrecognized cohort resolves
to the `checkout_abandoners` value sets. -/
theorem C10_exploit_ignores_cohort_sets :
    ((selectCombo "payment_failed" [outsideStat] r10).timing ∉
        (cohortIntelligenceFor "payment_failed").timing ∧
      (selectCombo "payment_failed" [outsideStat] r10).channel ∉
        (cohortIntelligenceFor "payment_failed").channel ∧
      (selectCombo "payment_failed" [outsideStat] r10).lever ∉
        (cohortIntelligenceFor "payment_failed").lever ∧
      (selectCombo "payment_failed" [outsideStat] r10).offer ∉
        (cohortIntelligenceFor "payment_failed").offer ∧
      (selectCombo "payment_failed" [outsideStat] r10).tone ∈
        (cohortIntelligenceFor "payment_failed").tone) ∧
    (∀ (cohort : String) (stats : List ComboStat) (r : Rnd),
      (selectCombo cohort stats r).tone ∈ (cohortIntelligenceFor cohort).tone) ∧
    (∀ c : String, c ≠ "payment_failed" → c ≠ "paywall_bouncers" →
      cohortIntelligenceFor c = cohortIntelligenceFor "checkout_abandoners") := by
  refine ⟨?_, ?_, ?_⟩
  · refine ⟨?_, ?_, ?_, ?_, ?_⟩ <;>
    · norm_num [selectCombo, rankedStats, sortByCvrDesc, insertByCvr, cvrOf,
        randomFrom, toneDraw, cohortIntelligenceFor, r10, outsideStat]
      decide
  · intro cohort stats r
    rw [selectCombo_tone]
    exact toneDraw_mem _ _ (tone_ne_nil cohort)
  · intro c h1 h2
    unfold cohortIntelligenceFor
    rw [if_neg h1, if_neg h2, if_neg (by decide), if_neg (by decide)]

/-- C10 witness: an unrecognized cohort resolves to the checkout_abandoners
value sets, and the tone for a recognized cohort lies in its tone set. -/
theorem C10_exploit_ignores_cohort_sets_witness :
    cohortIntelligenceFor "net_new_users" = cohortIntelligenceFor "checkout_abandoners" ∧
    (selectCombo "paywall_bouncers" [] r10).tone ∈
      (cohortIntelligenceFor "paywall_bouncers").tone := by
  exact ⟨C10_exploit_ignores_cohort_sets.2.2 "net_new_users" (by decide) (by decide),
         C10_exploit_ignores_cohort_sets.2.1 "paywall_bouncers" [] r10⟩

/-- In the fresh branch (`no recent experiment`), `createExperiment` appends
exactly one experiment and one scheduled send and returns the new id. -/
lemma createExperiment_fresh (s : State) (u c : String) (a : Attrs) (now : Int) (r : Rnd)
    (h : s.experiments.find? (recentPred u c now) = none) :
    createExperiment s u c a now r =
      ({ s with
          experiments := s.experiments ++ [freshExperiment s u c a now r],
          scheduled_messages := s.scheduled_messages ++ [freshSend s u c now r] },
       r.expId) := by
  simp only [createExperiment, h]

/-- C3: `createExperiment` is idempotent within the recency window.  If a
matching experiment for (userId, cohort) created within the last hour is
found, the call returns the stored experiment's id and leaves the state
entirely unchanged (so no new Experiment and no new ScheduledSend).  Hence
two consecutive calls — a fresh one and a repeat within the window — return
the same identifier, the second call changes nothing, and exactly one
ScheduledSend (and one Experiment) is created in total. -/
theorem C3_createExperiment_idempotent :
    (∀ (s : State) (u c : String) (a : Attrs) (now : Int) (r : Rnd) (e : Experiment),
      s.experiments.find? (recentPred u c now) = some e →
      createExperiment s u c a now r = (s, e.id) ∧ recentPred u c now e = true) ∧
    (∀ (s : State) (u c : String) (a : Attrs) (now now' : Int) (r r' : Rnd),
      s.experiments.find? (recentPred u c now) = none →
      now ≤ now' → now' < now + 3600000 →
      (createExperiment (createExperiment s u c a now r).1 u c a now' r').2
          = (createExperiment s u c a now r).2 ∧
      (createExperiment (createExperiment s u c a now r).1 u c a now' r').1
          = (createExperiment s u c a now r).1 ∧
      (createExperiment s u c a now r).1.scheduled_messages.length
          = s.scheduled_messages.length + 1 ∧
      (createExperiment s u c a now r).1.experiments.length
          = s.experiments.length + 1) := by
  constructor
  · intro s u c a now r e h
    refine ⟨?_, List.find?_some h⟩
    simp only [createExperiment, h]
  · intro s u c a now now' r r' h h1 h2
    have hn' : s.experiments.find? (recentPred u c now') = none := by
      rw [List.find?_eq_none] at h ⊢
      intro x hx hpx
      apply h x hx
      simp only [recentPred, Bool.and_eq_true, beq_iff_eq, decide_eq_true_eq] at hpx ⊢
      obtain ⟨hab, hc⟩ := hpx
      exact ⟨hab, by omega⟩
    have hpos : recentPred u c now' (freshExperiment s u c a now r) = true := by
      simp only [recentPred, freshExperiment, Bool.and_eq_true, beq_iff_eq,
        decide_eq_true_eq]
      refine ⟨⟨trivial, trivial⟩, by omega⟩
    rw [createExperiment_fresh s u c a now r h]
    have h2nd : (({ s with
          experiments := s.experiments ++ [freshExperiment s u c a now r],
          scheduled_messages := s.scheduled_messages ++ [freshSend s u c now r] }
            : State)).experiments.find? (recentPred u c now')
        = some (freshExperiment s u c a now r) := by
      show (s.experiments ++ [freshExperiment s u c a now r]).find? (recentPred u c now')
          = some (freshExperiment s u c a now r)
      rw [find?_append_none hn']
      exact List.find?_cons_of_pos _ hpos
    refine ⟨?_, ?_, ?_, ?_⟩
    · simp only [createExperiment, h2nd]
      rfl
    · simp only [createExperiment, h2nd]
    · simp
    · simp

/-- C3 witness: a repeat call on a state holding a 40ms-old matching
experiment returns that experiment's id unchanged, and from the empty state
a fresh call followed by a repeat 1 second later returns the same id with
exactly one scheduled send created. -/
theorem C3_createExperiment_idempotent_witness :
    (createExperiment convState "u1" "checkout_abandoners" demoAttrs 40 rW
        = (convState, "E1") ∧
      recentPred "u1" "checkout_abandoners" 40 e1 = true) ∧
    ((createExperiment
        (createExperiment initState "u1" "checkout_abandoners" demoAttrs 0 rW).1
        "u1" "checkout_abandoners" demoAttrs 1000 r10).2
      = (createExperiment initState "u1" "checkout_abandoners" demoAttrs 0 rW).2 ∧
      (createExperiment
        (createExperiment initState "u1" "checkout_abandoners" demoAttrs 0 rW).1
        "u1" "checkout_abandoners" demoAttrs 1000 r10).1
      = (createExperiment initState "u1" "checkout_abandoners" demoAttrs 0 rW).1 ∧
      (createExperiment initState "u1" "checkout_abandoners" demoAttrs 0 rW).1.scheduled_messages.length
      = initState.scheduled_messages.length + 1 ∧
      (createExperiment initState "u1" "checkout_abandoners" demoAttrs 0 rW).1.experiments.length
      = initState.experiments.length + 1) := by
  refine ⟨?_, ?_⟩
  · have h := C3_createExperiment_idempotent.1 convState "u1" "checkout_abandoners"
      demoAttrs 40 rW e1 (by decide)
    exact h
  · exact C3_createExperiment_idempotent.2 initState "u1" "checkout_abandoners"
      demoAttrs 0 1000 rW r10 (by decide) (by decide) (by decide)

instance cvrDescTotal : IsTotal (ComboStat × Rat) (fun a b => b.2 ≤ a.2) :=
  ⟨fun a b => le_total b.2 a.2⟩

instance cvrDescTrans : IsTrans (ComboStat × Rat) (fun a b => b.2 ≤ a.2) :=
  ⟨fun _ _ _ h1 h2 => le_trans h2 h1⟩

lemma insertByCvr_eq_orderedInsert (x : ComboStat × Rat) (l : List (ComboStat × Rat)) :
    insertByCvr x l = List.orderedInsert (fun a b => b.2 ≤ a.2) x l := by
  induction l with
  | nil => rfl
  | cons y ys ih => simp only [insertByCvr, List.orderedInsert, ih]

lemma sortByCvrDesc_eq_insertionSort (l : List (ComboStat × Rat)) :
    sortByCvrDesc l = List.insertionSort (fun a b => b.2 ≤ a.2) l := by
  induction l with
  | nil => rfl
  | cons x xs ih => simp only [sortByCvrDesc, List.insertionSort, ih,
      insertByCvr_eq_orderedInsert]

lemma sortByCvrDesc_perm (l : List (ComboStat × Rat)) : (sortByCvrDesc l).Perm l := by
  rw [sortByCvrDesc_eq_insertionSort]
  exact List.perm_insertionSort _ l

lemma sortByCvrDesc_sorted (l : List (ComboStat × Rat)) :
    (sortByCvrDesc l).Sorted (fun a b => b.2 ≤ a.2) := by
  rw [sortByCvrDesc_eq_insertionSort]
  exact List.sorted_insertionSort _ l

theorem C4_exploit_selects_top5 (cohort : String) (stats : List ComboStat) (r : Rnd)
    (hne : stats.filter (fun s => 5 ≤ s.sent_count) ≠ [])
    (hexp : ¬ (r.u < (2 : Rat) / 10)) :
    (∃ p ∈ (rankedStats stats).take 5,
      (selectCombo cohort stats r).timing = p.1.timing ∧
      (selectCombo cohort stats r).channel = p.1.channel ∧
      (selectCombo cohort stats r).lever = p.1.lever ∧
      (selectCombo cohort stats r).offer = p.1.offer) ∧
    ((rankedStats stats).map Prod.fst).Perm (stats.filter (fun s => 5 ≤ s.sent_count)) ∧
    (rankedStats stats).Sorted (fun a b => b.2 ≤ a.2) ∧
    (∀ p ∈ rankedStats stats, p.2 = cvrOf p.1) ∧
    (selectCombo cohort stats r).tone ∈ (cohortIntelligenceFor cohort).tone ∧
    (∀ stats' : List ComboStat,
      (selectCombo cohort stats' r).tone = (selectCombo cohort stats r).tone) := by
  have hperm : ((rankedStats stats).map Prod.fst).Perm
      (stats.filter (fun s => 5 ≤ s.sent_count)) := by
    have h1 := (sortByCvrDesc_perm ((stats.filter (fun s => 5 ≤ s.sent_count)).map
      (fun s => (s, cvrOf s)))).map Prod.fst
    unfold rankedStats
    refine h1.trans ?_
    rw [List.map_map]
    show ((stats.filter (fun s => 5 ≤ s.sent_count)).map (fun s => s)).Perm
      (stats.filter (fun s => 5 ≤ s.sent_count))
    rw [List.map_id']
  have hrne : rankedStats stats ≠ [] := by
    intro hmt
    apply hne
    have := hperm.length_eq
    rw [hmt] at this
    simpa using this.symm
  have hlen : 0 < (rankedStats stats).length := List.length_pos.mpr hrne
  have hbranch : selectCombo cohort stats r =
      ⟨(randomFrom ((rankedStats stats).take 5) r.pick).1.timing,
       (randomFrom ((rankedStats stats).take 5) r.pick).1.channel,
       (randomFrom ((rankedStats stats).take 5) r.pick).1.lever,
       (randomFrom ((rankedStats stats).take 5) r.pick).1.offer,
       toneDraw (cohortIntelligenceFor cohort) r⟩ := by
    simp only [selectCombo]
    rw [if_pos ⟨hexp, hlen⟩]
  have htake : (rankedStats stats).take 5 ≠ [] := by
    intro hmt
    rcases List.take_eq_nil_iff.mp hmt with h5 | h0
    · omega
    · exact hrne h0
  refine ⟨?_, hperm, ?_, ?_, ?_, ?_⟩
  · refine ⟨randomFrom ((rankedStats stats).take 5) r.pick,
      randomFrom_mem _ htake, ?_, ?_, ?_, ?_⟩ <;> rw [hbranch]
  · exact sortByCvrDesc_sorted _
  · intro p hp
    have hp2 : p ∈ (stats.filter (fun s => 5 ≤ s.sent_count)).map (fun s => (s, cvrOf s)) :=
      (sortByCvrDesc_perm _).mem_iff.mp hp
    obtain ⟨s, _, rfl⟩ := List.mem_map.mp hp2
    rfl
  · rw [selectCombo_tone]
    exact toneDraw_mem _ _ (tone_ne_nil cohort)
  · intro stats'
    rw [selectCombo_tone, selectCombo_tone]

/-- C4 witness: on a one-combo statistics state with the epsilon draw equal
to the threshold (the exploit branch fires), the selection comes from the
top-5 of the ranked list and the tone from the cohort's tone set,
independently of the statistics. -/
theorem C4_exploit_selects_top5_witness :
    (∃ p ∈ (rankedStats [outsideStat]).take 5,
      (selectCombo "checkout_abandoners" [outsideStat] rW).timing = p.1.timing ∧
      (selectCombo "checkout_abandoners" [outsideStat] rW).channel = p.1.channel ∧
      (selectCombo "checkout_abandoners" [outsideStat] rW).lever = p.1.lever ∧
      (selectCombo "checkout_abandoners" [outsideStat] rW).offer = p.1.offer) ∧
    ((rankedStats [outsideStat]).map Prod.fst).Perm
      ([outsideStat].filter (fun s => 5 ≤ s.sent_count)) ∧
    (rankedStats [outsideStat]).Sorted (fun a b => b.2 ≤ a.2) ∧
    (∀ p ∈ rankedStats [outsideStat], p.2 = cvrOf p.1) ∧
    (selectCombo "checkout_abandoners" [outsideStat] rW).tone ∈
      (cohortIntelligenceFor "checkout_abandoners").tone ∧
    (∀ stats' : List ComboStat,
      (selectCombo "checkout_abandoners" stats' rW).tone =
        (selectCombo "checkout_abandoners" [outsideStat] rW).tone) := by
  exact C4_exploit_selects_top5 "checkout_abandoners" [outsideStat] rW
    (by decide) (by simp [rW])

/-- C8: the send-time computation.  Each timing with a fixed offset in the
lookup table yields `now` plus that offset; `next_morning` / `next_evening`
yield `getNextTime`, whose result is exactly the next occurrence of the
08:00 / 19:00 local time of day (time-of-day correct, strictly in the
future, at most one day away — in particular rolled to the following day
when that time of day has already passed); every timing with no fixed
offset other than the two day-part values (e.g. `payday`) yields
`now + 60000`. -/
theorem C8_send_time (now : Int) :
    computeSendAt "2min" now = now + 2 * 60 * 1000 ∧
    computeSendAt "5min" now = now + 5 * 60 * 1000 ∧
    computeSendAt "30min" now = now + 30 * 60 * 1000 ∧
    computeSendAt "1hr" now = now + 60 * 60 * 1000 ∧
    computeSendAt "2hr" now = now + 2 * 60 * 60 * 1000 ∧
    computeSendAt "4hr" now = now + 4 * 60 * 60 * 1000 ∧
    (computeSendAt "next_morning" now = getNextTime 8 0 now ∧
      getNextTime 8 0 now % dayMs = 8 * 60 * 60 * 1000 ∧
      now < getNextTime 8 0 now ∧ getNextTime 8 0 now ≤ now + dayMs) ∧
    (computeSendAt "next_evening" now = getNextTime 19 0 now ∧
      getNextTime 19 0 now % dayMs = 19 * 60 * 60 * 1000 ∧
      now < getNextTime 19 0 now ∧ getNextTime 19 0 now ≤ now + dayMs) ∧
    (∀ t : String, timingDelay t = none → t ≠ "next_morning" → t ≠ "next_evening" →
      computeSendAt t now = now + 60000) := by
  have hmod : 0 ≤ now % dayMs ∧ now % dayMs < dayMs := by
    constructor
    · exact Int.emod_nonneg now (by norm_num [dayMs])
    · exact Int.emod_lt_of_pos now (by norm_num [dayMs])
  refine ⟨?_, ?_, ?_, ?_, ?_, ?_, ⟨?_, ?_, ?_, ?_⟩, ⟨?_, ?_, ?_, ?_⟩, ?_⟩
  · simp [computeSendAt, timingDelay]
  · simp [computeSendAt, timingDelay]
  · simp [computeSendAt, timingDelay]
  · simp [computeSendAt, timingDelay]
  · simp [computeSendAt, timingDelay]
  · simp [computeSendAt, timingDelay]
  · simp [computeSendAt, timingDelay]
  · simp only [getNextTime, dayMs] at hmod ⊢; split <;> omega
  · simp only [getNextTime, dayMs] at hmod ⊢; split <;> omega
  · simp only [getNextTime, dayMs] at hmod ⊢; split <;> omega
  · simp [computeSendAt, timingDelay]
  · simp only [getNextTime, dayMs] at hmod ⊢; split <;> omega
  · simp only [getNextTime, dayMs] at hmod ⊢; split <;> omega
  · simp only [getNextTime, dayMs] at hmod ⊢; split <;> omega
  · intro t h h1 h2
    simp [computeSendAt, h, h1, h2]

/-- C8 witness: a fixed-offset timing and the unmapped `payday` timing at a
concrete clock value. -/
theorem C8_send_time_witness :
    computeSendAt "2min" 123456789 = 123456789 + 2 * 60 * 1000 ∧
    computeSendAt "payday" 123456789 = 123456789 + 60000 := by
  exact ⟨(C8_send_time 123456789).1,
    (C8_send_time 123456789).2.2.2.2.2.2.2.2 "payday" (by decide) (by decide) (by decide)⟩

/-- Generic preservation of a predicate along a left fold. -/
lemma foldl_pres {σ β : Type} (P : σ → Prop) (step : σ → β → σ)
    (h : ∀ s b, P s → P (step s b)) :
    ∀ (l : List β) (s : σ), P s → P (l.foldl step s) := by
  intro l
  induction l with
  | nil => intro s hs; exact hs
  | cons x xs ih => intro s hs; exact ih _ (h _ _ hs)

/-- The journey-record property tracked by C5: position `i` exists and its
record is resolved. -/
def CheckedAt (i : Nat) (s : State) : Prop :=
  i < s.user_journey.length ∧ (s.user_journey.getD i default).checked = true

lemma getD_append_left {α : Type} [Inhabited α] {l : List α} (l' : List α) {i : Nat}
    (h : i < l.length) : (l ++ l').getD i default = l.getD i default := by
  rw [List.getD_eq_getElem?_getD, List.getD_eq_getElem?_getD, List.getElem?_append,
    if_pos h]

lemma markChecked_length (u t : String) (js : List Journey) :
    (markChecked u t js).length = js.length := by
  unfold markChecked
  exact List.length_map _ _

lemma markChecked_checked (u t : String) (js : List Journey) (i : Nat)
    (h : i < js.length) (hc : (js.getD i default).checked = true) :
    ((markChecked u t js).getD i default).checked = true := by
  unfold markChecked
  rw [List.getD_eq_getElem?_getD, List.getElem?_map, List.getElem?_eq_getElem h]
  rw [List.getD_eq_getElem?_getD, List.getElem?_eq_getElem h] at hc
  simp only [Option.map_some', Option.getD_some] at hc ⊢
  split
  · rfl
  · exact hc

lemma createExperiment_journey (s : State) (u c : String) (a : Attrs) (now : Int)
    (r : Rnd) : (createExperiment s u c a now r).1.user_journey = s.user_journey := by
  cases h : s.experiments.find? (recentPred u c now) <;>
    simp [createExperiment, h]

lemma createExperiment_stats (s : State) (u c : String) (a : Attrs) (now : Int)
    (r : Rnd) : (createExperiment s u c a now r).1.combo_stats = s.combo_stats := by
  cases h : s.experiments.find? (recentPred u c now) <;>
    simp [createExperiment, h]

lemma checkForConversion_journey (s : State) (u t : String) (now : Int) :
    (checkForConversion s u t now).user_journey = s.user_journey ∨
    (∃ ty, (checkForConversion s u t now).user_journey
      = markChecked u ty s.user_journey) := by
  unfold checkForConversion
  split
  · exact Or.inr ⟨"trial_paywall_view", rfl⟩
  split
  · split
    · exact Or.inr ⟨"trial_initiated", rfl⟩
    · exact Or.inr ⟨"trial_initiated", rfl⟩
  · exact Or.inl rfl

lemma checkForConversion_checked (s : State) (u t : String) (now : Int) (i : Nat)
    (h : CheckedAt i s) : CheckedAt i (checkForConversion s u t now) := by
  rcases checkForConversion_journey s u t now with hj | ⟨ty, hj⟩
  · exact ⟨by rw [hj]; exact h.1, by rw [hj]; exact h.2⟩
  · exact ⟨by rw [hj, markChecked_length]; exact h.1,
      by rw [hj]; exact markChecked_checked _ _ _ _ h.1 h.2⟩

lemma processEvent_checked (s : State) (u t : String) (p : Attrs) (now : Int)
    (jid : String) (r : Rnd) (i : Nat) (h : CheckedAt i s) :
    CheckedAt i (processEvent s u t p now jid r) := by
  unfold processEvent
  split
  · exact h
  have h1 := checkForConversion_checked s u t now i h
  split
  · exact h1
  · constructor
    · rw [createExperiment_journey]; exact h1.1
    · rw [createExperiment_journey]; exact h1.2
  · constructor
    · simp only [List.length_append]
      exact Nat.lt_of_lt_of_le h1.1 (Nat.le_add_right _ _)
    · rw [getD_append_left _ h1.1]; exact h1.2

/-- Branch equations for `sweepProcess`. -/
lemma sweepProcess_none (now : Int) (r : Rnd) (s : State) (i : Nat) (j : Journey)
    (h : eventConfigFor j.event_type = none) : sweepProcess now r s i j = s := by
  unfold sweepProcess
  rw [h]

lemma sweepProcess_immediate (now : Int) (r : Rnd) (s : State) (i : Nat) (j : Journey)
    (c : String) (h : eventConfigFor j.event_type = some (.immediate c)) :
    sweepProcess now r s i j = s := by
  unfold sweepProcess
  rw [h]

lemma sweepProcess_waits (now : Int) (r : Rnd) (s : State) (i : Nat) (j : Journey)
    (wf : String) (tmo : Int) (cim : String)
    (h : eventConfigFor j.event_type = some (.waits wf tmo cim)) :
    sweepProcess now r s i j =
      (let s1 := if hasFollowUp s.user_journey j.user_id wf j.event_time then s
        else (createExperiment s j.user_id cim j.properties now r).1
       { s1 with user_journey := s1.user_journey.set i { j with checked := true } }) := by
  unfold sweepProcess
  rw [h]

lemma sweepProcess_checked (now : Int) (r : Rnd) (s : State) (i0 i : Nat) (j : Journey)
    (h : CheckedAt i s) : CheckedAt i (sweepProcess now r s i0 j) := by
  cases hc : eventConfigFor j.event_type with
  | none => rw [sweepProcess_none now r s i0 j hc]; exact h
  | some rule =>
    cases rule with
    | immediate c => rw [sweepProcess_immediate now r s i0 j c hc]; exact h
    | waits wf tmo cim =>
      rw [sweepProcess_waits now r s i0 j wf tmo cim hc]
      have hj : (if hasFollowUp s.user_journey j.user_id wf j.event_time then s
          else (createExperiment s j.user_id cim j.properties now r).1).user_journey
          = s.user_journey := by
        split
        · rfl
        · exact createExperiment_journey _ _ _ _ _ _
      constructor
      · show i < ((if hasFollowUp s.user_journey j.user_id wf j.event_time then s
          else (createExperiment s j.user_id cim j.properties now r).1).user_journey.set
            i0 { j with checked := true }).length
        rw [List.length_set, hj]
        exact h.1
      · show (((if hasFollowUp s.user_journey j.user_id wf j.event_time then s
          else (createExperiment s j.user_id cim j.properties now r).1).user_journey.set
            i0 { j with checked := true }).getD i default).checked = true
        rw [hj]
        by_cases hij : i0 = i
        · subst hij
          rw [List.getD_eq_getElem?_getD, List.getElem?_set_self h.1]
          rfl
        · rw [List.getD_eq_getElem?_getD, List.getElem?_set_ne hij,
            ← List.getD_eq_getElem?_getD]
          exact h.2

lemma sweepStep_checked (now : Int) (rs : Nat → Rnd) (s : State) (j i : Nat)
    (h : CheckedAt i s) : CheckedAt i (sweepStep now rs s j) := by
  unfold sweepStep
  exact sweepProcess_checked now (rs j) s j i _ h

/-- Branch equations for `dispatchProcess`. -/
lemma dispatchProcess_none (now : Int) (ok : String → Bool) (s : State) (i : Nat)
    (msg : ScheduledSend)
    (h : s.experiments.findIdx? (fun e => e.id == msg.experiment_id) = none) :
    dispatchProcess now ok s i msg = s := by
  unfold dispatchProcess
  rw [h]

lemma dispatchProcess_some (now : Int) (ok : String → Bool) (s : State) (i : Nat)
    (msg : ScheduledSend) (j : Nat)
    (h : s.experiments.findIdx? (fun e => e.id == msg.experiment_id) = some j) :
    dispatchProcess now ok s i msg =
      { s with
          scheduled_messages := s.scheduled_messages.set i { msg with status := "sent" },
          experiments := s.experiments.set j
            { s.experiments.getD j default with sent_at := some now, status := "sent" },
          combo_stats := updateComboStats s.combo_stats
            (comboKeyOf { s.experiments.getD j default with
              sent_at := some now, status := "sent" })
            { s.experiments.getD j default with sent_at := some now, status := "sent" }
            false now } := by
  unfold dispatchProcess
  rw [h]

lemma dispatchStep_journey (now : Int) (ok : String → Bool) (s : State) (i : Nat) :
    (dispatchStep now ok s i).user_journey = s.user_journey := by
  unfold dispatchStep
  cases h : s.experiments.findIdx?
      (fun e => e.id == (s.scheduled_messages.getD i default).experiment_id) with
  | none => rw [dispatchProcess_none now ok s i _ h]
  | some j => rw [dispatchProcess_some now ok s i _ j h]

lemma applyOp_checked (s : State) (op : Op) (i : Nat) (h : CheckedAt i s) :
    CheckedAt i (applyOp s op) := by
  cases op with
  | event u t p now jid r => exact processEvent_checked s u t p now jid r i h
  | trigger u c a now r =>
    simp only [applyOp]
    split
    · exact h
    · exact ⟨by rw [createExperiment_journey]; exact h.1,
        by rw [createExperiment_journey]; exact h.2⟩
  | sweep now rs =>
    exact foldl_pres (CheckedAt i) (sweepStep now rs)
      (fun s' j h' => sweepStep_checked now rs s' j i h') _ s h
  | dispatch now ok =>
    refine foldl_pres (CheckedAt i) (dispatchStep now ok)
      (fun s' j h' => ?_) _ s h
    exact ⟨by rw [dispatchStep_journey]; exact h'.1,
      by rw [dispatchStep_journey]; exact h'.2⟩

/-- C5: the resolved flag (`checked`) of a journey record is monotone: once
true it stays true under every sequence of engine operations (webhook
events, manual triggers, deadline sweeps, dispatcher runs), so it flips
false-to-true at most once and never true-to-false; moreover a resolved
record is never part of any later deadline-sweep batch, so abandonment
handling cannot fire again for it no matter how often the sweep re-runs. -/
theorem C5_resolved_flag_monotone (s : State) (ops : List Op) (i : Nat)
    (h1 : i < s.user_journey.length)
    (h2 : (s.user_journey.getD i default).checked = true) :
    (i < (applyOps s ops).user_journey.length ∧
      ((applyOps s ops).user_journey.getD i default).checked = true) ∧
    (∀ now : Int, i ∉ duePendingIdx (applyOps s ops) now) := by
  have hck : CheckedAt i (applyOps s ops) :=
    foldl_pres (CheckedAt i) applyOp (fun s' op h' => applyOp_checked s' op i h')
      ops s ⟨h1, h2⟩
  refine ⟨hck, ?_⟩
  intro now hmem
  have hmem2 := List.mem_of_mem_take hmem
  have hpred := (List.mem_filter.mp hmem2).2
  rw [Bool.and_eq_true] at hpred
  have hnc := hpred.2
  rw [hck.2] at hnc
  simp at hnc

/-- C5 witness: a state holding one resolved record keeps it resolved across
a sweep run, and the record is not in the next sweep batch. -/
theorem C5_resolved_flag_monotone_witness :
    (0 < (applyOps sChecked [Op.sweep 700000 (fun _ => default)]).user_journey.length ∧
      ((applyOps sChecked [Op.sweep 700000 (fun _ => default)]).user_journey.getD 0
        default).checked = true) ∧
    0 ∉ duePendingIdx (applyOps sChecked [Op.sweep 700000 (fun _ => default)]) 900000 := by
  have h := C5_resolved_flag_monotone sChecked [Op.sweep 700000 (fun _ => default)] 0
    (by decide) (by decide)
  exact ⟨h.1, h.2 900000⟩

lemma statsMono_refl (l : List ComboStat) : StatsMono l l :=
  fun _ c h => ⟨c, h, le_refl _, le_refl _⟩

lemma statsMono_trans {a b c : List ComboStat} (h1 : StatsMono a b)
    (h2 : StatsMono b c) : StatsMono a c := by
  intro k x hx
  obtain ⟨y, hy, s1, c1⟩ := h1 k x hx
  obtain ⟨z, hz, s2, c2⟩ := h2 k y hy
  exact ⟨z, hz, le_trans s1 s2, le_trans c1 c2⟩

lemma find?_cons_pos {α : Type} (p : α → Bool) (a : α) (l : List α) (h : p a = true) :
    (a :: l).find? p = some a := by
  simp [List.find?, h]

lemma find?_cons_neg {α : Type} (p : α → Bool) (a : α) (l : List α) (h : p a = false) :
    (a :: l).find? p = l.find? p := by
  simp [List.find?, h]

lemma lookup_updateFirst (key k : String) (f : ComboStat → ComboStat)
    (hk : ∀ s, (f s).combo_key = s.combo_key) :
    ∀ (l : List ComboStat) (c : ComboStat), lookupStat k l = some c →
      lookupStat k (updateFirst (fun s => s.combo_key == key) f l) = some c ∨
      lookupStat k (updateFirst (fun s => s.combo_key == key) f l) = some (f c) := by
  intro l
  induction l with
  | nil => intro c h; simp [lookupStat] at h
  | cons x xs ih =>
    intro c h
    unfold updateFirst
    unfold lookupStat at h ⊢
    by_cases hx : x.combo_key == key
    · rw [if_pos hx]
      by_cases hkx : x.combo_key == k
      · rw [find?_cons_pos (fun s => s.combo_key == k) x xs hkx] at h
        have hfk : ((f x).combo_key == k) = true := by rw [hk]; exact hkx
        rw [find?_cons_pos (fun s => s.combo_key == k) (f x) xs hfk]
        right
        injection h with h'
        rw [h']
      · have hkx' : (x.combo_key == k) = false := by simpa using hkx
        have hfk : ((f x).combo_key == k) = false := by rw [hk]; exact hkx'
        rw [find?_cons_neg (fun s => s.combo_key == k) x xs hkx'] at h
        rw [find?_cons_neg (fun s => s.combo_key == k) (f x) xs hfk]
        exact Or.inl h
    · rw [if_neg hx]
      by_cases hkx : x.combo_key == k
      · rw [find?_cons_pos (fun s => s.combo_key == k) x xs hkx] at h
        rw [find?_cons_pos (fun s => s.combo_key == k) x
          (updateFirst (fun s => s.combo_key == key) f xs) hkx]
        exact Or.inl h
      · have hkx' : (x.combo_key == k) = false := by simpa using hkx
        rw [find?_cons_neg (fun s => s.combo_key == k) x xs hkx'] at h
        rw [find?_cons_neg (fun s => s.combo_key == k) x
          (updateFirst (fun s => s.combo_key == key) f xs) hkx']
        exact ih c h

lemma updateFirst_mem (p : ComboStat → Bool) (f : ComboStat → ComboStat) :
    ∀ (l : List ComboStat), ∀ y ∈ updateFirst p f l, y ∈ l ∨ ∃ x ∈ l, y = f x := by
  intro l
  induction l with
  | nil => intro y hy; simp [updateFirst] at hy
  | cons x xs ih =>
    intro y hy
    unfold updateFirst at hy
    by_cases hx : p x
    · rw [if_pos hx] at hy
      rcases List.mem_cons.mp hy with h1 | h1
      · exact Or.inr ⟨x, List.mem_cons_self _ _, h1⟩
      · exact Or.inl (List.mem_cons_of_mem _ h1)
    · rw [if_neg hx] at hy
      rcases List.mem_cons.mp hy with h1 | h1
      · exact Or.inl (h1 ▸ List.mem_cons_self _ _)
      · rcases ih y h1 with h2 | ⟨z, hz, h3⟩
        · exact Or.inl (List.mem_cons_of_mem _ h2)
        · exact Or.inr ⟨z, List.mem_cons_of_mem _ hz, h3⟩

lemma updateComboStats_mono (l : List ComboStat) (key : String) (e : Experiment)
    (conv : Bool) (now : Int) : StatsMono l (updateComboStats l key e conv now) := by
  intro k c h
  cases hf : l.find? (fun s => s.combo_key == key) with
  | some s0 =>
    have hlu := lookup_updateFirst key k
        (fun s =>
          { s with sent_count := s.sent_count + 1
                   converted_count := (if conv then s.converted_count + 1
                     else s.converted_count)
                   last_updated := now })
        (fun _ => rfl) l c h
    rcases hlu with h' | h'
    · refine ⟨c, ?_, le_refl _, le_refl _⟩
      simp only [updateComboStats, hf]
      exact h'
    · refine ⟨⟨c.combo_key, c.timing, c.channel, c.lever, c.offer,
        c.sent_count + 1, (if conv then c.converted_count + 1 else c.converted_count),
        now⟩, ?_, ?_, ?_⟩
      · simp only [updateComboStats, hf]
        exact h'
      · exact Nat.le_succ _
      · cases conv <;> simp
  | none =>
    refine ⟨c, ?_, le_refl _, le_refl _⟩
    simp only [updateComboStats, hf]
    unfold lookupStat at h ⊢
    exact find?_append_some h

lemma updateComboStats_inv (l : List ComboStat) (key : String) (e : Experiment)
    (conv : Bool) (now : Int) (h : StatsInv l) :
    StatsInv (updateComboStats l key e conv now) := by
  intro c hc
  cases hf : l.find? (fun s => s.combo_key == key) with
  | some s0 =>
    simp only [updateComboStats, hf] at hc
    rcases updateFirst_mem _ _ l c hc with h1 | ⟨x, hx, rfl⟩
    · exact h c h1
    · have hx2 := h x hx
      cases conv <;> simp <;> omega
  | none =>
    simp only [updateComboStats, hf] at hc
    rcases List.mem_append.mp hc with h1 | h1
    · exact h c h1
    · simp only [List.mem_singleton] at h1
      subst h1
      cases conv <;> simp

lemma checkForConversion_stats (s : State) (u t : String) (now : Int) :
    (checkForConversion s u t now).combo_stats = s.combo_stats ∨
    ∃ key e, (checkForConversion s u t now).combo_stats
      = updateComboStats s.combo_stats key e true now := by
  unfold checkForConversion
  split
  · exact Or.inl rfl
  split
  · split
    · exact Or.inr ⟨_, _, rfl⟩
    · exact Or.inl rfl
  · exact Or.inl rfl

lemma processEvent_stats (s : State) (u t : String) (p : Attrs) (now : Int)
    (jid : String) (r : Rnd) :
    (processEvent s u t p now jid r).combo_stats = s.combo_stats ∨
    ∃ key e, (processEvent s u t p now jid r).combo_stats
      = updateComboStats s.combo_stats key e true now := by
  unfold processEvent
  split
  · exact Or.inl rfl
  split
  · exact checkForConversion_stats s u t now
  · rw [createExperiment_stats]
    exact checkForConversion_stats s u t now
  · exact checkForConversion_stats s u t now

lemma sweepProcess_stats (now : Int) (r : Rnd) (s : State) (i : Nat) (j : Journey) :
    (sweepProcess now r s i j).combo_stats = s.combo_stats := by
  cases hc : eventConfigFor j.event_type with
  | none => rw [sweepProcess_none now r s i j hc]
  | some rule =>
    cases rule with
    | immediate c => rw [sweepProcess_immediate now r s i j c hc]
    | waits wf tmo cim =>
      rw [sweepProcess_waits now r s i j wf tmo cim hc]
      show (if hasFollowUp s.user_journey j.user_id wf j.event_time then s
        else (createExperiment s j.user_id cim j.properties now r).1).combo_stats
          = s.combo_stats
      split
      · rfl
      · exact createExperiment_stats _ _ _ _ _ _

lemma sweepRun_stats (s : State) (now : Int) (rs : Nat → Rnd) :
    (sweepRun s now rs).combo_stats = s.combo_stats := by
  unfold sweepRun
  refine foldl_pres (fun s' => s'.combo_stats = s.combo_stats) (sweepStep now rs)
    (fun s' b h' => ?_) _ s rfl
  show (sweepStep now rs s' b).combo_stats = s.combo_stats
  unfold sweepStep
  rw [sweepProcess_stats]
  exact h'

lemma dispatchStep_statsMono (now : Int) (ok : String → Bool) (s : State) (i : Nat) :
    StatsMono s.combo_stats (dispatchStep now ok s i).combo_stats := by
  unfold dispatchStep
  cases h : s.experiments.findIdx?
      (fun e => e.id == (s.scheduled_messages.getD i default).experiment_id) with
  | none =>
    rw [dispatchProcess_none now ok s i _ h]
    exact statsMono_refl _
  | some j =>
    rw [dispatchProcess_some now ok s i _ j h]
    exact updateComboStats_mono _ _ _ _ _

lemma dispatchStep_statsInv (now : Int) (ok : String → Bool) (s : State) (i : Nat)
    (h : StatsInv s.combo_stats) : StatsInv (dispatchStep now ok s i).combo_stats := by
  unfold dispatchStep
  cases hf : s.experiments.findIdx?
      (fun e => e.id == (s.scheduled_messages.getD i default).experiment_id) with
  | none =>
    rw [dispatchProcess_none now ok s i _ hf]
    exact h
  | some j =>
    rw [dispatchProcess_some now ok s i _ j hf]
    exact updateComboStats_inv _ _ _ _ _ h

lemma foldl_statsMono {β : Type} (step : State → β → State)
    (h : ∀ s b, StatsMono s.combo_stats (step s b).combo_stats) :
    ∀ (l : List β) (s : State), StatsMono s.combo_stats (l.foldl step s).combo_stats := by
  intro l
  induction l with
  | nil => intro s; exact statsMono_refl _
  | cons x xs ih => intro s; exact statsMono_trans (h s x) (ih (step s x))

lemma applyOp_statsMono (s : State) (op : Op) :
    StatsMono s.combo_stats (applyOp s op).combo_stats := by
  cases op with
  | event u t p now jid r =>
    rcases processEvent_stats s u t p now jid r with h | ⟨key, e, h⟩
    · show StatsMono s.combo_stats (processEvent s u t p now jid r).combo_stats
      rw [h]
      exact statsMono_refl _
    · show StatsMono s.combo_stats (processEvent s u t p now jid r).combo_stats
      rw [h]
      exact updateComboStats_mono _ _ _ _ _
  | trigger u c a now r =>
    simp only [applyOp]
    split
    · exact statsMono_refl _
    · rw [createExperiment_stats]
      exact statsMono_refl _
  | sweep now rs =>
    show StatsMono s.combo_stats (sweepRun s now rs).combo_stats
    rw [sweepRun_stats]
    exact statsMono_refl _
  | dispatch now ok =>
    exact foldl_statsMono (dispatchStep now ok)
      (fun s' b => dispatchStep_statsMono now ok s' b) _ s

lemma applyOp_statsInv (s : State) (op : Op) (h : StatsInv s.combo_stats) :
    StatsInv (applyOp s op).combo_stats := by
  cases op with
  | event u t p now jid r =>
    rcases processEvent_stats s u t p now jid r with h1 | ⟨key, e, h1⟩
    · show StatsInv (processEvent s u t p now jid r).combo_stats
      rw [h1]; exact h
    · show StatsInv (processEvent s u t p now jid r).combo_stats
      rw [h1]
      exact updateComboStats_inv _ _ _ _ _ h
  | trigger u c a now r =>
    simp only [applyOp]
    split
    · exact h
    · rw [createExperiment_stats]; exact h
  | sweep now rs =>
    show StatsInv (sweepRun s now rs).combo_stats
    rw [sweepRun_stats]; exact h
  | dispatch now ok =>
    exact foldl_pres (fun s' => StatsInv s'.combo_stats) (dispatchStep now ok)
      (fun s' b h' => dispatchStep_statsInv now ok s' b h') _ s h

/-- C7: ComboStat counts never decrease across any single engine operation
(whatever key is stored keeps at least its sent and converted counts), the
initial state satisfies converted_count ≤ sent_count vacuously, and that
invariant is preserved by every sequence of operations — hence it holds in
every reachable state. -/
theorem C7_combo_stat_counts :
    (∀ (s : State) (op : Op) (k : String) (c : ComboStat),
      lookupStat k s.combo_stats = some c →
      ∃ c', lookupStat k (applyOp s op).combo_stats = some c' ∧
        c.sent_count ≤ c'.sent_count ∧ c.converted_count ≤ c'.converted_count) ∧
    StatsInv initState.combo_stats ∧
    (∀ (s : State) (ops : List Op), StatsInv s.combo_stats →
      StatsInv (applyOps s ops).combo_stats) := by
  refine ⟨?_, ?_, ?_⟩
  · intro s op k c h
    exact applyOp_statsMono s op k c h
  · intro c hc
    simp [initState] at hc
  · intro s ops h
    exact foldl_pres (fun s' => StatsInv s'.combo_stats) applyOp
      (fun s' op h' => applyOp_statsInv s' op h') ops s h

/-- C7 witness: on a state holding one ComboStat (sent 5, converted 1), a
sweep operation keeps the key with counts at least as large, and the state
keeps the converted ≤ sent invariant across an (empty) run. -/
theorem C7_combo_stat_counts_witness :
    (∃ c', lookupStat "2min|push|scarcity|no_offer"
        (applyOp convState (Op.sweep 0 (fun _ => default))).combo_stats = some c' ∧
      cs1.sent_count ≤ c'.sent_count ∧ cs1.converted_count ≤ c'.converted_count) ∧
    cs1.converted_count ≤ cs1.sent_count := by
  refine ⟨C7_combo_stat_counts.1 convState (Op.sweep 0 (fun _ => default))
      "2min|push|scarcity|no_offer" cs1 (by decide), ?_⟩
  exact C7_combo_stat_counts.2.2 convState [] (by simp [StatsInv, convState, cs1]) cs1
    (by decide)
